import Mathlib

/-!
Verification of the data-contract validation core of the
automated-data-validation repository.

Embedded source:
- `src/src/utils.py`: `load_data_contract` (lines 5-8) and
  `validate_schema` (lines 10-24).
- `src/scripts/validate_data.py`: the expectation-suite application loop in
  `main` (lines 49-58).

Modelling conventions:
- A pandas DataFrame is modelled by its association list of named columns;
  a cell is `Option String` and a pandas null is `none`
  (`df[c].isnull().any()` becomes "some cell is `none`").
- A YAML rule set `\x7bnullable: bool\x7d` is a structure whose `nullable`
  field is `Option Bool`; `rules.get("nullable", True)` becomes
  `Option.getD true`.
- A contract dict is a structure whose `schema` field is
  `Option (List (String × Rules))`; `contract.get("schema", \x7b\x7d)`
  becomes `Option.getD []`.  Python dicts iterate in insertion order, hence
  association lists.
-/

/-- One column rule set of a contract: the YAML mapping under a column name.
`nullable = none` models a rule set without a `nullable` key. -/
structure Rules where
  nullable : Option Bool
deriving Repr, DecidableEq

/-- Embeds the Python expression `rules.get("nullable", True)`. -/
def Rules.getNullable (r : Rules) : Bool :=
  r.nullable.getD true

/-- A data contract document: a dict that may carry a `schema` key mapping
column names (in declaration order) to rule sets. `schema = none` models a
contract dict with no `schema` key at all. -/
structure Contract where
  schema : Option (List (String × Rules))
deriving Repr, DecidableEq

/-- Embeds the Python expression `contract.get("schema", \x7b\x7d)`. -/
def Contract.getSchema (c : Contract) : List (String × Rules) :=
  c.schema.getD []

/-- A tabular dataset: named columns, each an ordered list of cells.
A `none` cell is a pandas null. -/
structure DataFrame where
  cols : List (String × List (Option String))
deriving Repr, DecidableEq

/-- Embeds `df.columns`: the list of column names. -/
def DataFrame.columns (df : DataFrame) : List String :=
  df.cols.map Prod.fst

/-- Embeds `df[c]`: the cells of the first column named `c`
(empty when the column is absent; `validate_schema` only reads it after
checking presence). -/
def DataFrame.getCol (df : DataFrame) (c : String) : List (Option String) :=
  match df.cols.find? (fun p => p.fst == c) with
  | some p => p.snd
  | none => []

/-- Embeds `df[c].isnull().any()`: some cell of the column is null. -/
def hasNulls (cells : List (Option String)) : Bool :=
  cells.any Option.isNone

/-- The loop body of `validate_schema` (src/src/utils.py lines 15-22):
given the violations accumulated so far and one `(column, rules)` entry of
the schema, append the violation this entry produces, if any.  The `continue`
after the missing-column branch is the else between the two tests. -/
def validateStep (df : DataFrame) (errors : List String)
    (cr : String × Rules) : List String :=
  if !(df.columns.contains cr.fst) then
    errors ++ ["Missing required column: " ++ cr.fst]
  else if !cr.snd.getNullable && hasNulls (df.getCol cr.fst) then
    errors ++ ["Column " ++ cr.fst ++ " has null values but nullable=false"]
  else
    errors

/-- Embeds `validate_schema(df, contract)` from src/src/utils.py lines 10-24:
iterate the contract schema in order, collecting violation strings, and
return `(len(errors) == 0, errors)`. -/
def validate_schema (df : DataFrame) (contract : Contract) :
    Bool × List String :=
  let schema := contract.getSchema
  let errors := schema.foldl (validateStep df) []
  (errors.length == 0, errors)

/-- A call to `validate_schema` with the caller's state made explicit: the
function body only reads `df` and `contract` (its sole assignments target the
local `errors` list), so a call returns its two arguments unchanged alongside
the result. -/
def validate_schema_call (st : DataFrame × Contract) :
    (Bool × List String) × DataFrame × Contract :=
  (validate_schema st.fst st.snd, st)

/-- The violation (if any) that a single schema entry contributes:
a derived closed form of `validateStep`, used by the proofs. -/
def violationOf (df : DataFrame) (cr : String × Rules) : Option String :=
  if !(df.columns.contains cr.fst) then
    some ("Missing required column: " ++ cr.fst)
  else if !cr.snd.getNullable && hasNulls (df.getCol cr.fst) then
    some ("Column " ++ cr.fst ++ " has null values but nullable=false")
  else
    none

/-- A schema entry produces a violation iff its column is absent, or is
non-nullable and contains a null. -/
def violates (df : DataFrame) (cr : String × Rules) : Bool :=
  !(df.columns.contains cr.fst) ||
    (!cr.snd.getNullable && hasNulls (df.getCol cr.fst))

/-- One entry of the expectation suite JSON: an `expectation_type` rule name
and its `kwargs` parameter mapping (parameters are opaque to the loop). -/
structure ExpConfig where
  expectation_type : String
  kwargs : List (String × String)
deriving Repr, DecidableEq

/-- The great-expectations validator object as the loop sees it: the set of
attribute names `hasattr` can find on it, and the expectations registered on
it so far by calling `getattr(validator, t)(**kwargs)`. -/
structure Validator where
  attrs : List String
  applied : List ExpConfig
deriving Repr, DecidableEq

/-- Body of the suite loop (src/scripts/validate_data.py lines 51-58): when
`hasattr(validator, expectation_type)` holds, invoke the expectation method
(registering the expectation on the validator) and increment
`expectation_count`; otherwise do nothing. -/
def applyExpConfig (vc : Validator × Nat) (e : ExpConfig) : Validator × Nat :=
  if vc.fst.attrs.contains e.expectation_type then
    (⟨vc.fst.attrs, vc.fst.applied ++ [e]⟩, vc.snd + 1)
  else
    vc

/-- Embeds the expectation-application loop of src/scripts/validate_data.py
lines 49-58: fold the loop body over the suite entries in order, starting
from the freshly created validator and `expectation_count = 0`. -/
def applyExpectations (v : Validator) (suite : List ExpConfig) :
    Validator × Nat :=
  suite.foldl applyExpConfig (v, 0)

/-- Python exception classes relevant to `load_data_contract`
(src/src/utils.py lines 5-8).  `open` raises `FileNotFoundError` when the
path is missing and `yaml.safe_load` raises `YAMLError` on malformed input;
`ConfigParseError` is the class named by the specification, which no module
of the repository defines — it is included only so the spec claim about it
can be stated. -/
inductive PyError where
  | FileNotFoundError
  | YAMLError
  | ConfigParseError
deriving Repr, DecidableEq

/-- Embeds `load_data_contract(contract_path)` from src/src/utils.py lines
5-8.  The file system is a map from path to contents (`none` = missing file,
so `open` raises `FileNotFoundError`); `safeLoad` is `yaml.safe_load`
(`none` = malformed document, raising `YAMLError`).  On success the parsed
document is returned unmodified. -/
def load_data_contract (readFile : String → Option String)
    (safeLoad : String → Option Contract) (contract_path : String) :
    Except PyError Contract :=
  match readFile contract_path with
  | none => Except.error PyError.FileNotFoundError
  | some text =>
      match safeLoad text with
      | none => Except.error PyError.YAMLError
      | some doc => Except.ok doc

lemma validateStep_eq (df : DataFrame) (errors : List String)
    (cr : String × Rules) :
    validateStep df errors cr = errors ++ (violationOf df cr).toList := by
  unfold validateStep violationOf
  cases h1 : df.columns.contains cr.fst with
  | false => simp
  | true =>
      cases h2 : !cr.snd.getNullable && hasNulls (df.getCol cr.fst) with
      | false => simp
      | true => simp

lemma foldl_validateStep (df : DataFrame) (schema : List (String × Rules)) :
    ∀ acc : List String,
      schema.foldl (validateStep df) acc
        = acc ++ schema.filterMap (violationOf df) := by
  induction schema with
  | nil => intro acc; simp
  | cons cr rest ih =>
      intro acc
      simp only [List.foldl_cons, ih, validateStep_eq]
      cases h : violationOf df cr <;> simp [List.filterMap_cons, h]

/-- Closed-form characterization of `validate_schema`: the violation list is
the in-order `filterMap` of `violationOf` over the schema, and the success
flag tests its emptiness. -/
theorem validate_schema_spec (df : DataFrame) (c : Contract) :
    validate_schema df c
      = ((c.getSchema.filterMap (violationOf df)).length == 0,
         c.getSchema.filterMap (violationOf df)) := by
  unfold validate_schema
  dsimp only
  rw [foldl_validateStep]
  simp

lemma violationOf_isSome (df : DataFrame) (cr : String × Rules) :
    (violationOf df cr).isSome = violates df cr := by
  unfold violationOf violates
  cases h1 : df.columns.contains cr.fst with
  | false => simp
  | true =>
      cases h2 : !cr.snd.getNullable && hasNulls (df.getCol cr.fst) with
      | false => simp
      | true => simp

lemma length_filterMap_violations (df : DataFrame)
    (schema : List (String × Rules)) :
    (schema.filterMap (violationOf df)).length
      = (schema.filter (violates df)).length := by
  induction schema with
  | nil => simp
  | cons cr rest ih =>
      have hiso := violationOf_isSome df cr
      cases hv : violationOf df cr with
      | none =>
          have hvv : violates df cr = false := by rw [← hiso, hv]; rfl
          simp [List.filterMap_cons, List.filter_cons, hv, hvv, ih]
      | some v =>
          have hvv : violates df cr = true := by rw [← hiso, hv]; rfl
          simp [List.filterMap_cons, List.filter_cons, hv, hvv, ih]

lemma violationOf_eq_none (df : DataFrame) (cr : String × Rules)
    (h1 : df.columns.contains cr.fst = true)
    (h2 : cr.snd.getNullable = false → hasNulls (df.getCol cr.fst) = false) :
    violationOf df cr = none := by
  unfold violationOf
  rw [h1]
  cases hn : cr.snd.getNullable with
  | true => simp [hn]
  | false => simp [hn, h2 hn]

lemma violationOf_missing (df : DataFrame) (column : String) (rules : Rules)
    (habs : df.columns.contains column = false) :
    violationOf df (column, rules)
      = some ("Missing required column: " ++ column) := by
  unfold violationOf
  dsimp only
  rw [habs]
  rfl

lemma validate_schema_of_no_violation (df : DataFrame) (c : Contract)
    (h : ∀ cr ∈ c.getSchema, violationOf df cr = none) :
    validate_schema df c = (true, []) := by
  rw [validate_schema_spec]
  rw [List.filterMap_eq_nil_iff.mpr h]
  rfl

lemma getCol_of_all_empty (df : DataFrame)
    (hempty : ∀ p ∈ df.cols, p.snd = ([] : List (Option String)))
    (c : String) : df.getCol c = [] := by
  unfold DataFrame.getCol
  cases hf : df.cols.find? (fun p => p.fst == c) with
  | none => rfl
  | some p => exact hempty p (List.mem_of_find?_eq_some hf)

lemma hasNulls_congr (xs ys : List (Option String))
    (h : xs.map Option.isNone = ys.map Option.isNone) :
    hasNulls xs = hasNulls ys := by
  induction xs generalizing ys with
  | nil => cases ys with
    | nil => rfl
    | cons y ys => simp at h
  | cons x xs ih =>
      cases ys with
      | nil => simp at h
      | cons y ys =>
          simp only [List.map_cons, List.cons.injEq] at h
          simp only [hasNulls, List.any_cons] at ih ⊢
          rw [h.left, ih ys h.right]

lemma violationOf_congr (d1 d2 : DataFrame) (cr : String × Rules)
    (h1 : d1.columns.contains cr.fst = d2.columns.contains cr.fst)
    (h2 : (d1.getCol cr.fst).map Option.isNone
        = (d2.getCol cr.fst).map Option.isNone) :
    violationOf d1 cr = violationOf d2 cr := by
  unfold violationOf
  rw [h1, hasNulls_congr _ _ h2]

lemma filterMap_violationOf_congr (d1 d2 : DataFrame)
    (schema : List (String × Rules))
    (h : ∀ cr ∈ schema, violationOf d1 cr = violationOf d2 cr) :
    schema.filterMap (violationOf d1) = schema.filterMap (violationOf d2) := by
  induction schema with
  | nil => rfl
  | cons cr rest ih =>
      rw [List.filterMap_cons, List.filterMap_cons, h cr (by simp),
        ih (fun x hx => h x (by simp [hx]))]

lemma applyExpectations_foldl (suite : List ExpConfig) :
    ∀ (v : Validator) (n : Nat),
      suite.foldl applyExpConfig (v, n)
        = (⟨v.attrs, v.applied
              ++ suite.filter (fun e => v.attrs.contains e.expectation_type)⟩,
           n + (suite.filter
              (fun e => v.attrs.contains e.expectation_type)).length) := by
  induction suite with
  | nil => intro v n; simp
  | cons e rest ih =>
      intro v n
      rw [List.foldl_cons]
      cases hm : v.attrs.contains e.expectation_type with
      | false =>
          have hm2 : e.expectation_type ∉ v.attrs := by simpa using hm
          have hstep : applyExpConfig (v, n) e = (v, n) := by
            unfold applyExpConfig
            dsimp only
            rw [hm]
            rfl
          rw [hstep, ih v n]
          simp [hm2]
      | true =>
          have hm2 : e.expectation_type ∈ v.attrs := by simpa using hm
          have hstep : applyExpConfig (v, n) e
              = (⟨v.attrs, v.applied ++ [e]⟩, n + 1) := by
            unfold applyExpConfig
            dsimp only
            rw [hm]
            rfl
          rw [hstep, ih ⟨v.attrs, v.applied ++ [e]⟩ (n + 1)]
          simp [hm2, List.append_assoc]
          omega

/-- C1: if every column named in the contract schema is present in the
dataset and every column whose rule set resolves `nullable` to `false`
contains no null values, then `validate_schema` returns `(True, [])`. -/
theorem validate_schema_clean_pass (df : DataFrame) (c : Contract)
    (hpresent : ∀ cr ∈ c.getSchema, df.columns.contains cr.fst = true)
    (hnonull : ∀ cr ∈ c.getSchema, cr.snd.getNullable = false →
        hasNulls (df.getCol cr.fst) = false) :
    validate_schema df c = (true, []) := by
  exact validate_schema_of_no_violation df c
    (fun cr hcr => violationOf_eq_none df cr (hpresent cr hcr) (hnonull cr hcr))

theorem validate_schema_clean_pass_witness :
    validate_schema
        (DataFrame.mk [("customerID", [some "0001"]), ("gender", [none])])
        (Contract.mk (some [("customerID", Rules.mk (some false)),
                            ("gender", Rules.mk (some true))]))
      = (true, []) :=
  validate_schema_clean_pass _ _ (by decide) (by decide)

/-- C2: the violation list is exactly the in-order violations of the schema
entries, its length is the number of schema columns that are absent or
non-nullable-with-nulls, and the success flag is true exactly when that
count is zero. -/
theorem validate_schema_violation_count (df : DataFrame) (c : Contract) :
    (validate_schema df c).snd = c.getSchema.filterMap (violationOf df)
      ∧ (validate_schema df c).snd.length
          = (c.getSchema.filter (violates df)).length
      ∧ (validate_schema df c).fst
          = ((c.getSchema.filter (violates df)).length == 0) := by
  rw [validate_schema_spec]
  refine ⟨rfl, length_filterMap_violations df _, ?_⟩
  rw [← length_filterMap_violations df]

/-- C3: a schema entry whose column is absent from the dataset contributes
exactly the string "Missing required column: " followed by the column name,
and no nullability check runs for it — whatever its rule set says, including
`nullable=false`, it never produces a null-values violation. -/
theorem missing_column_violation (df : DataFrame)
    (pre post : List (String × Rules)) (column : String) (rules : Rules)
    (habs : df.columns.contains column = false) :
    (validate_schema df
        (Contract.mk (some (pre ++ (column, rules) :: post)))).snd
      = pre.filterMap (violationOf df)
        ++ ("Missing required column: " ++ column)
          :: post.filterMap (violationOf df) := by
  rw [validate_schema_spec]
  show (pre ++ (column, rules) :: post).filterMap (violationOf df) = _
  rw [List.filterMap_append, List.filterMap_cons,
    violationOf_missing df column rules habs]

theorem missing_column_violation_witness :
    (validate_schema (DataFrame.mk [("customerID", [some "0001"])])
        (Contract.mk (some [("TotalCharges", Rules.mk (some false))]))).snd
      = ["Missing required column: TotalCharges"] :=
  missing_column_violation (DataFrame.mk [("customerID", [some "0001"])])
    [] [] "TotalCharges" (Rules.mk (some false)) (by decide)

/-- C4: violations keep the contract order — when schema entry `a` precedes
entry `b` and both produce a violation, the returned list is the violations
of the prefix, then the violation of `a`, then those of the middle, then the
violation of `b`, then those of the suffix. -/
theorem violation_order (df : DataFrame)
    (pre mid post : List (String × Rules)) (a b : String × Rules)
    (va vb : String)
    (ha : violationOf df a = some va) (hb : violationOf df b = some vb) :
    (validate_schema df
        (Contract.mk (some (pre ++ a :: (mid ++ b :: post))))).snd
      = pre.filterMap (violationOf df)
        ++ va :: (mid.filterMap (violationOf df)
        ++ vb :: post.filterMap (violationOf df)) := by
  rw [validate_schema_spec]
  show (pre ++ a :: (mid ++ b :: post)).filterMap (violationOf df) = _
  rw [List.filterMap_append, List.filterMap_cons, ha,
    List.filterMap_append, List.filterMap_cons, hb]

theorem violation_order_witness :
    (validate_schema (DataFrame.mk [])
        (Contract.mk (some [("customerID", Rules.mk (some false)),
                            ("TotalCharges", Rules.mk none)]))).snd
      = ["Missing required column: customerID",
         "Missing required column: TotalCharges"] :=
  violation_order (DataFrame.mk []) [] [] []
    ("customerID", Rules.mk (some false)) ("TotalCharges", Rules.mk none)
    "Missing required column: customerID"
    "Missing required column: TotalCharges" (by decide) (by decide)

/-- C5: the suite loop applies and counts exactly the entries whose
`expectation_type` is an attribute of the validator, in order; an entry whose
rule name does not resolve is skipped — it is not registered on the
validator, not counted, and the loop runs to completion (the fold is total,
so no entry ever aborts it). -/
theorem expectation_loop_skips_unknown (v : Validator)
    (suite : List ExpConfig) :
    (applyExpectations v suite).fst.applied
        = v.applied
          ++ suite.filter (fun e => v.attrs.contains e.expectation_type)
      ∧ (applyExpectations v suite).snd
          = (suite.filter
              (fun e => v.attrs.contains e.expectation_type)).length
      ∧ (applyExpectations v suite).fst.attrs = v.attrs := by
  unfold applyExpectations
  rw [applyExpectations_foldl suite v 0]
  exact ⟨rfl, by simp, rfl⟩

/-- C6 counterexample: at a missing contract path, `load_data_contract`
propagates `FileNotFoundError` from `open`, which is not the
`ConfigParseError` the claim names (the repository defines no such class). -/
theorem load_data_contract_not_ConfigParseError :
    load_data_contract (fun _ => none) (fun _ => none)
        "config/data_contract.yaml"
      = Except.error PyError.FileNotFoundError
      ∧ (Except.error PyError.FileNotFoundError : Except PyError Contract)
          ≠ Except.error PyError.ConfigParseError := by
  refine ⟨rfl, fun h => ?_⟩
  cases h

/-- C6 amended: on a missing document `load_data_contract` raises the
built-in `FileNotFoundError`, on a malformed document it propagates
`yaml.YAMLError` (not a repository-defined `ConfigParseError`, which does
not exist), and on a well-formed document it returns the parsed structure
unmodified with no side effects beyond the read. -/
theorem load_data_contract_spec (readFile : String → Option String)
    (safeLoad : String → Option Contract) (p : String) :
    (readFile p = none →
        load_data_contract readFile safeLoad p
          = Except.error PyError.FileNotFoundError)
      ∧ (∀ t, readFile p = some t → safeLoad t = none →
          load_data_contract readFile safeLoad p
            = Except.error PyError.YAMLError)
      ∧ (∀ t d, readFile p = some t → safeLoad t = some d →
          load_data_contract readFile safeLoad p = Except.ok d) := by
  refine ⟨fun h => ?_, fun t h1 h2 => ?_, fun t d h1 h2 => ?_⟩
  · unfold load_data_contract
    rw [h]
  · unfold load_data_contract
    rw [h1]
    dsimp only
    rw [h2]
  · unfold load_data_contract
    rw [h1]
    dsimp only
    rw [h2]

theorem load_data_contract_spec_witness :
    load_data_contract (fun _ => some "schema:")
        (fun _ => some (Contract.mk (some []))) "config/data_contract.yaml"
      = Except.ok (Contract.mk (some [])) :=
  (load_data_contract_spec (fun _ => some "schema:")
      (fun _ => some (Contract.mk (some [])))
      "config/data_contract.yaml").right.right
    "schema:" (Contract.mk (some [])) rfl rfl

/-- C7: `validate_schema` is deterministic and stateless — a call returns
its dataset and contract unchanged, and a second call on the state left by
the first returns the identical result. -/
theorem validate_schema_stateless (df : DataFrame) (c : Contract) :
    (validate_schema_call (df, c)).snd = (df, c)
      ∧ (validate_schema_call ((validate_schema_call (df, c)).snd)).fst
          = (validate_schema_call (df, c)).fst :=
  ⟨rfl, rfl⟩

/-- C8: the result depends only on the contract columns — two datasets that
agree on the presence and null pattern of every column named in the schema
validate identically, so columns the contract does not mention (extra
columns included) never change the result. -/
theorem validate_schema_noninterference (d1 d2 : DataFrame) (c : Contract)
    (hagree : ∀ cr ∈ c.getSchema,
        d1.columns.contains cr.fst = d2.columns.contains cr.fst
          ∧ (d1.getCol cr.fst).map Option.isNone
              = (d2.getCol cr.fst).map Option.isNone) :
    validate_schema d1 c = validate_schema d2 c := by
  rw [validate_schema_spec, validate_schema_spec,
    filterMap_violationOf_congr d1 d2 c.getSchema
      (fun cr hcr =>
        violationOf_congr d1 d2 cr (hagree cr hcr).left (hagree cr hcr).right)]

theorem validate_schema_noninterference_witness :
    validate_schema (DataFrame.mk [("customerID", [some "0001"])])
        (Contract.mk (some [("customerID", Rules.mk (some false))]))
      = validate_schema
          (DataFrame.mk [("customerID", [some "0002"]),
                         ("extra", [none, none])])
          (Contract.mk (some [("customerID", Rules.mk (some false))])) :=
  validate_schema_noninterference _ _ _ (by decide)

/-- C9: an empty schema mapping yields `(True, [])` for every dataset. -/
theorem empty_schema_passes (df : DataFrame) :
    validate_schema df (Contract.mk (some [])) = (true, []) :=
  rfl

/-- C10: a dataset with zero rows that contains every schema column passes
even when the contract has non-nullable columns (the null check never fires
on an empty column), and a contract dict lacking the `schema` key entirely
also yields `(True, [])` because the schema lookup falls back to an empty
mapping. -/
theorem empty_rows_and_missing_schema_key_pass (df d : DataFrame)
    (c : Contract)
    (_hnn : ∃ cr ∈ c.getSchema, cr.snd.getNullable = false)
    (hpresent : ∀ cr ∈ c.getSchema, df.columns.contains cr.fst = true)
    (hempty : ∀ p ∈ df.cols, p.snd = ([] : List (Option String))) :
    validate_schema df c = (true, [])
      ∧ validate_schema d (Contract.mk none) = (true, []) := by
  refine ⟨?_, rfl⟩
  apply validate_schema_of_no_violation
  intro cr hcr
  apply violationOf_eq_none df cr (hpresent cr hcr)
  intro _
  rw [getCol_of_all_empty df hempty]
  rfl

theorem empty_rows_and_missing_schema_key_pass_witness :
    validate_schema (DataFrame.mk [("customerID", [])])
        (Contract.mk (some [("customerID", Rules.mk (some false))]))
      = (true, [])
      ∧ validate_schema (DataFrame.mk [("gender", [none])])
          (Contract.mk none) = (true, []) :=
  empty_rows_and_missing_schema_key_pass
    (DataFrame.mk [("customerID", [])]) (DataFrame.mk [("gender", [none])])
    (Contract.mk (some [("customerID", Rules.mk (some false))]))
    ⟨("customerID", Rules.mk (some false)), by decide, rfl⟩
    (by decide) (by decide)
